import Mathlib

/-!
Clause audit-event bridge: chaincode and ledger client.

A shallow embedding of

* `src/chaincode/clause/node/clause.js` (class `Chaincode`: `Init`, `Invoke`,
  `initLedger`, `storeAuditEvent`), and
* `src/clause/clauseHlfClient.js` (class `ClauseHlfClient`: `submit` and the two
  callbacks it hands to `registerTxEvent`).

Stateful code is written in state-passing style. Calls into external
collaborators (the ledger stub, the channel, the event hub) are recorded in an
explicit trace so that their number and order can be stated. Console output is
not modelled: it never influences control flow.
-/

/-! ## JavaScript errors shared by both files -/

/-- Errors that the modelled code can raise. -/
inductive JsError where
  /-- The value of `new Error(msg)`. -/
  | error (msg : String)
  /-- A `TypeError` raised by the language runtime. -/
  | typeError
  /-- A `SyntaxError` raised by `JSON.parse`. -/
  | syntaxError
  /-- A `ReferenceError` for an identifier that is bound nowhere. -/
  | referenceError (identifier : String)
  deriving DecidableEq, Repr

namespace Chaincode

/-! ## Ledger stub -/

/-- World state seen through the stub: a partial map from keys to stored text. -/
abbrev Ledger := String → Option String

/-- The effect of `stub.putState(key, Buffer.from(value))`: overwrite one key. -/
def putState (st : Ledger) (key value : String) : Ledger :=
  fun k => if k = key then some value else st k

/-- Values a chaincode method can hand back, and the envelopes built by the shim. -/
inductive Value where
  /-- The value of a function that ends without `return`. -/
  | undefined
  /-- The value of `Buffer.from(text)`. -/
  | buffer (text : String)
  /-- The value of `shim.success(payload)`. -/
  | success (payload : Value)
  /-- The value of `shim.error(err)`. -/
  | failure (err : JsError)
  deriving DecidableEq, Repr

/-- How a call ends: it returns a value or an error escapes it. -/
inductive Outcome where
  | returned (v : Value)
  | raised (e : JsError)
  deriving DecidableEq, Repr

/-- What `this[name]` can yield on a `Chaincode` instance. The four methods and
the class constructor come from the class body; everything else is inherited
from `Object.prototype`, which belongs to the language runtime. An inherited
member is represented by the outcome of calling it as a bare function. -/
inductive Member where
  | Init
  | Invoke
  | initLedger
  | storeAuditEvent
  | classConstructor
  | inherited (call : Outcome)
  deriving DecidableEq, Repr

/-- The runtime-supplied members of `Object.prototype`: for a property name,
the outcome of calling that (truthy) property as `method(stub, params)`, or
`none` when there is no such property. -/
abbrev ObjectPrototype := String → Option Outcome

/-- The names that the class body of `Chaincode` puts on the prototype. -/
def declaredNames : List String :=
  ["constructor", "Init", "Invoke", "initLedger", "storeAuditEvent"]

/-- The lookup `this[fcn]` of `Invoke`: own class members shadow inherited ones. -/
def lookup (proto : ObjectPrototype) (fcn : String) : Option Member :=
  if fcn = "constructor" then some .classConstructor
  else if fcn = "Init" then some .Init
  else if fcn = "Invoke" then some .Invoke
  else if fcn = "initLedger" then some .initLedger
  else if fcn = "storeAuditEvent" then some .storeAuditEvent
  else (proto fcn).map .inherited

/-- The result of a call on the stub: outcome and ledger afterwards. -/
structure Call where
  outcome : Outcome
  state : Ledger

/-- The method `Init`: returns `shim.success()` and touches nothing. -/
def Init (st : Ledger) : Call :=
  ⟨.returned (.success .undefined), st⟩

/-- The method `initLedger`: logs and ends without `return`. -/
def initLedger (st : Ledger) (_args : List String) : Call :=
  ⟨.returned .undefined, st⟩

/-- The method `storeAuditEvent`. -/
def storeAuditEvent (st : Ledger) (args : List String) : Call :=
  if args.length != 2 then
    ⟨.raised (.error "Incorrect number of arguments. Expecting 2 (Contract ID, Event)"), st⟩
  else
    let contractId := args.getD 0 ""
    let eventText := args.getD 1 ""
    ⟨.returned (.buffer ("Saved audit event for " ++ contractId)),
      putState st (contractId ++ "-AuditEvent") eventText⟩

/-- The call `method(stub, ret.params)` of `Invoke`. The method is called
detached from its object, so `this` is `undefined` inside it: a nested `Invoke`
fails at `this[ret.fcn]`, and the class constructor cannot be called without
`new`. -/
def callMember (st : Ledger) (params : List String) : Member → Call
  | .Init => Init st
  | .Invoke => ⟨.raised .typeError, st⟩
  | .initLedger => initLedger st params
  | .storeAuditEvent => storeAuditEvent st params
  | .classConstructor => ⟨.raised .typeError, st⟩
  | .inherited call => ⟨call, st⟩

/-- A run of the dispatch hook: outcome, ledger afterwards, and the member that
was called, if any. -/
structure Dispatch where
  outcome : Outcome
  state : Ledger
  invoked : Option Member

/-- The dispatch hook `Invoke`, with `stub.getFunctionAndParameters()` yielding
`fcn` and `params`. The unknown-function error is thrown before the `try`
block; whatever the called method raises is caught and wrapped by `shim.error`. -/
def Invoke (proto : ObjectPrototype) (st : Ledger) (fcn : String) (params : List String) :
    Dispatch :=
  match lookup proto fcn with
  | none => ⟨.raised (.error ("Received unknown function " ++ fcn ++ " invocation")), st, none⟩
  | some method =>
    let call := callMember st params method
    match call.outcome with
    | .returned payload => ⟨.returned (.success payload), call.state, some method⟩
    | .raised err => ⟨.returned (.failure err), call.state, some method⟩

/-- An `Object.prototype` without members, for concrete evaluations. -/
def bareProto : ObjectPrototype := fun _ => none

/-- The empty ledger. -/
def emptyLedger : Ledger := fun _ => none

end Chaincode

namespace ClauseHlfClient

/-! ## JSON values and the runtime codec -/

/-- A value produced by `JSON.parse`. Numbers are kept as their literal text. -/
inductive Json where
  | null
  | bool (b : Bool)
  | num (literal : String)
  | str (s : String)
  | arr (items : List Json)
  | obj (fields : List (String × Json))
  deriving Repr

/-- The runtime object `JSON`: `parse` yields `none` where `JSON.parse` raises a
`SyntaxError`; `stringify` is `JSON.stringify` on parsed values. -/
structure JSON where
  parse : String → Option Json
  stringify : Json → String

/-- A JavaScript value passed as a chaincode argument. -/
inductive JsVal where
  | undefined
  | json (v : Json)
  deriving Repr

/-- The read `auditEvent.contractId`: it raises a `TypeError` on `null`, finds
the field on an object that has it, and is `undefined` on every other value. -/
def contractId : Json → Except JsError JsVal
  | .null => .error .typeError
  | .obj fields =>
    match fields.lookup "contractId" with
    | some v => .ok (.json v)
    | none => .ok .undefined
  | _ => .ok .undefined

/-! ## The channel, its peers and the event hub -/

/-- The request handed to `channel.sendTransactionProposal`. -/
structure ProposalRequest where
  chaincodeId : String
  fcn : String
  args : List JsVal
  chainId : String
  txId : String
  deriving Repr

/-- One entry of the `proposalResponses` array. -/
inductive Reply where
  /-- An entry that is `undefined` or `null`. -/
  | nullish
  /-- An object whose `response` is missing or falsy, such as an error reported by a peer. -/
  | noResponse
  /-- An object with a `response` carrying `status`, `message` and `payload`. -/
  | response (status : Int) (message : String) (payload : String)
  deriving DecidableEq, Repr

/-- The array `results` that `sendTransactionProposal` resolves to:
`results[0]` (`none` when it is `undefined` or `null`) and `results[1]`. -/
structure ProposalResults where
  proposalResponses : Option (List Reply)
  proposal : String
  deriving DecidableEq, Repr

/-- The request handed to `channel.sendTransaction`. -/
structure TransactionRequest where
  proposalResponses : Option (List Reply)
  proposal : String
  deriving DecidableEq, Repr

/-- The collaborators behind `this.fabric_client` and `this.channel`: the
identifier that `newTransactionID` hands out, and how the two sends settle
(`Except.error` is a rejected promise). -/
structure Network where
  newTransactionID : String
  sendTransactionProposal : ProposalRequest → Except JsError ProposalResults
  sendTransaction : TransactionRequest → Except JsError Unit

/-- Calls made on external collaborators, in the order they are made. -/
inductive Effect where
  | newTransactionID (txId : String)
  | sendTransactionProposal (request : ProposalRequest)
  | sendTransaction (request : TransactionRequest)
  | registerTxEvent (txId : String)
  | unregisterTxEvent (txId : String)
  deriving Repr

/-- How the promise returned by `submit` settles. The function has no `return`
statement, so a fulfilled promise always carries `undefined`. -/
inductive Settled where
  | fulfilledUndefined
  | rejected (e : JsError)
  deriving DecidableEq, Repr

/-- A run of `submit`: how it settles and the calls it made. -/
structure Run where
  settled : Settled
  trace : List Effect

/-- The condition guarding `isProposalGood = true`:
`proposalResponses && proposalResponses[0].response &&
proposalResponses[0].response.status === 200`. Reading `.response` of a
missing first entry raises a `TypeError`. -/
def isProposalGood (proposalResponses : Option (List Reply)) : Except JsError Bool :=
  match proposalResponses with
  | none => .ok false
  | some responses =>
    match responses.head? with
    | none => .error .typeError
    | some .nullish => .error .typeError
    | some .noResponse => .ok false
    | some (.response status _ _) => .ok (status == 200)

/-- The message of the error thrown when the proposal is bad. -/
def proposalRejected : String :=
  "Failed to send Proposal or receive valid response. Response null or status is not 200. exiting..."

/-- The method `submit`, on the text of `event.value`. -/
def submit (json : JSON) (net : Network) (payload : String) : Run :=
  match json.parse payload with
  | none => ⟨.rejected .syntaxError, []⟩
  | some auditEvent =>
    let tx_id := net.newTransactionID
    let t1 := [Effect.newTransactionID tx_id]
    match contractId auditEvent with
    | .error e => ⟨.rejected e, t1⟩
    | .ok cid =>
      let request : ProposalRequest :=
        { chaincodeId := "clause", fcn := "storeAuditEvent",
          args := [cid, .json (.str (json.stringify auditEvent))],
          chainId := "mychannel", txId := tx_id }
      let t2 := t1 ++ [Effect.sendTransactionProposal request]
      match net.sendTransactionProposal request with
      | .error e => ⟨.rejected e, t2⟩
      | .ok results =>
        match isProposalGood results.proposalResponses with
        | .error e => ⟨.rejected e, t2⟩
        | .ok false => ⟨.rejected (.error proposalRejected), t2⟩
        | .ok true =>
          let request : TransactionRequest :=
            { proposalResponses := results.proposalResponses, proposal := results.proposal }
          let t3 := t2 ++ [Effect.sendTransaction request]
          match net.sendTransaction request with
          | .error e => ⟨.rejected e, t3⟩
          | .ok _ => ⟨.fulfilledUndefined, t3 ++ [Effect.registerTxEvent tx_id]⟩

/-- How a callback invoked by the event hub ends. -/
structure Callback where
  raised : Option JsError
  trace : List Effect

/-- The first callback given to `registerTxEvent`, called with `(tx, code)`:
it unregisters the listener and logs according to `code`. -/
def onTxEvent (transaction_id_string : String) (_code : String) : Callback :=
  ⟨none, [Effect.unregisterTxEvent transaction_id_string]⟩

/-- The second callback given to `registerTxEvent`, called with `(err)`: its
body calls `reject`, an identifier bound nowhere in the file. -/
def onTxError (_transaction_id_string : String) (_err : String) : Callback :=
  ⟨some (.referenceError "reject"), []⟩

/-- A notification from the event hub for a registered listener: a commit
event carrying a status code, or a connectivity error. -/
inductive Notification where
  | commit (code : String)
  | hubError (err : String)
  deriving DecidableEq, Repr

/-- The event hub invoking the callback pair registered for `txId`. -/
def deliver (txId : String) : Notification → Callback
  | .commit code => onTxEvent txId code
  | .hubError err => onTxError txId err

/-! ## Observations on traces -/

/-- The proposals sent, in order. -/
def proposals : List Effect → List ProposalRequest
  | [] => []
  | .sendTransactionProposal request :: rest => request :: proposals rest
  | _ :: rest => proposals rest

/-- The number of `sendTransaction` calls. -/
def sendCount : List Effect → Nat
  | [] => 0
  | .sendTransaction _ :: rest => sendCount rest + 1
  | _ :: rest => sendCount rest

/-- The identifiers handed out by `newTransactionID`, in order. -/
def identifiers : List Effect → List String
  | [] => []
  | .newTransactionID txId :: rest => txId :: identifiers rest
  | _ :: rest => identifiers rest

/-- The identifiers for which a listener was registered, in order. -/
def registrations : List Effect → List String
  | [] => []
  | .registerTxEvent txId :: rest => txId :: registrations rest
  | _ :: rest => registrations rest

/-- The identifiers for which a listener was unregistered, in order. -/
def unregistrations : List Effect → List String
  | [] => []
  | .unregisterTxEvent txId :: rest => txId :: unregistrations rest
  | _ :: rest => unregistrations rest

/-- The trace of a run followed by the event hub delivering `n` to every
listener the run registered. -/
def notify (run : Run) (n : Notification) : List Effect :=
  run.trace ++ (registrations run.trace).flatMap (fun txId => (deliver txId n).trace)

/-- Whether an entry of `proposalResponses` carries a response with status 200. -/
def statusIs200 : Reply → Bool
  | .response status _ _ => status == 200
  | _ => false

/-! ## Fixtures for concrete evaluations -/

/-- The payload of the end-to-end scenario. -/
def scenarioPayload : String :=
  "\x7b\"contractId\":\"C1\",\"status\":\"executed\"\x7d"

/-- The event that `scenarioPayload` decodes to. -/
def scenarioEvent : Json :=
  .obj [("contractId", .str "C1"), ("status", .str "executed")]

/-- A `JSON` runtime restricted to four texts: the scenario payload, the empty
record, `null`, and anything else, which it treats as malformed. -/
def fixtureJSON : JSON where
  parse := fun text =>
    if text = scenarioPayload then some scenarioEvent
    else if text = "\x7b\x7d" then some (.obj [])
    else if text = "null" then some .null
    else none
  stringify := fun v =>
    match v with
    | .obj [] => "\x7b\x7d"
    | .null => "null"
    | _ => scenarioPayload

/-- A network whose peers answer every proposal with `responses` and whose
orderer accepts every transaction. -/
def fixtureNetwork (responses : Option (List Reply)) : Network where
  newTransactionID := "tx-1"
  sendTransactionProposal := fun _ => .ok ⟨responses, "proposal-1"⟩
  sendTransaction := fun _ => .ok ()

end ClauseHlfClient

/-! ## Theorems about the chaincode -/

namespace Chaincode

theorem lookup_storeAuditEvent (proto : ObjectPrototype) :
    lookup proto "storeAuditEvent" = some .storeAuditEvent := by
  simp [lookup]

/-- C1: dispatching `storeAuditEvent` through `Invoke` with exactly the two
arguments `[contractId, eventText]` returns the success envelope with payload
"Saved audit event for {contractId}" and changes the ledger only at key
"{contractId}-AuditEvent", which then holds `eventText`; with an argument list
of any other length it returns an error envelope carrying the arity error and
leaves the ledger unchanged. -/
theorem Invoke_storeAuditEvent (proto : ObjectPrototype) (st : Ledger) :
    (∀ contractId eventText : String,
      (Invoke proto st "storeAuditEvent" [contractId, eventText]).outcome
          = .returned (.success (.buffer ("Saved audit event for " ++ contractId)))
        ∧ (Invoke proto st "storeAuditEvent" [contractId, eventText]).state
            (contractId ++ "-AuditEvent") = some eventText
        ∧ ∀ k, k ≠ contractId ++ "-AuditEvent" →
            (Invoke proto st "storeAuditEvent" [contractId, eventText]).state k = st k)
    ∧ (∀ args : List String, args.length ≠ 2 →
      (Invoke proto st "storeAuditEvent" args).outcome
          = .returned (.failure
              (.error "Incorrect number of arguments. Expecting 2 (Contract ID, Event)"))
        ∧ (Invoke proto st "storeAuditEvent" args).state = st) := by
  refine ⟨fun contractId eventText => ?_, fun args hlen => ?_⟩
  · refine ⟨?_, ?_, ?_⟩
    · simp [Invoke, lookup_storeAuditEvent, callMember, storeAuditEvent]
    · simp [Invoke, lookup_storeAuditEvent, callMember, storeAuditEvent, putState]
    · intro k hk
      simp [Invoke, lookup_storeAuditEvent, callMember, storeAuditEvent, putState, hk]
  · simp [Invoke, lookup_storeAuditEvent, callMember, storeAuditEvent, hlen]

/-- The statement of C1 applied to the scenario contract `C1` and to a one-argument call. -/
theorem Invoke_storeAuditEvent_witness :
    (Invoke bareProto emptyLedger "storeAuditEvent" ["C1", "executed"]).state "C1-AuditEvent"
        = some "executed"
      ∧ (Invoke bareProto emptyLedger "storeAuditEvent" ["C1"]).outcome
        = .returned (.failure
            (.error "Incorrect number of arguments. Expecting 2 (Contract ID, Event)")) :=
  ⟨((Invoke_storeAuditEvent bareProto emptyLedger).1 "C1" "executed").2.1,
   ((Invoke_storeAuditEvent bareProto emptyLedger).2 ["C1"] (by decide)).1⟩

theorem lookup_eq_none_iff (proto : ObjectPrototype) (fcn : String) :
    lookup proto fcn = none ↔ fcn ∉ declaredNames ∧ proto fcn = none := by
  unfold lookup declaredNames
  by_cases h1 : fcn = "constructor"
  · simp [h1]
  by_cases h2 : fcn = "Init"
  · simp [h2]
  by_cases h3 : fcn = "Invoke"
  · simp [h3]
  by_cases h4 : fcn = "initLedger"
  · simp [h4]
  by_cases h5 : fcn = "storeAuditEvent"
  · simp [h5]
  simp [h1, h2, h3, h4, h5]

/-- C7 as stated fails: for the name "foo", which matches no member of the
chaincode object, `Invoke` does not return an error envelope; the error
escapes the hook as a raised error. -/
theorem Invoke_unknown_not_envelope :
    lookup bareProto "foo" = none
      ∧ (¬ ∃ err, (Invoke bareProto emptyLedger "foo" []).outcome = .returned (.failure err))
      ∧ (Invoke bareProto emptyLedger "foo" []).outcome
          = .raised (.error "Received unknown function foo invocation") := by
  refine ⟨by decide, ?_, by decide⟩
  rintro ⟨err, h⟩
  have h2 : (Invoke bareProto emptyLedger "foo" []).outcome
      = .raised (.error "Received unknown function foo invocation") := by decide
  rw [h2] at h
  cases h

/-- C7, amended: for every ledger state and every requested name for which
the lookup on the chaincode object finds nothing, `Invoke` raises the error
"Received unknown function {fcn} invocation" (it escapes the hook rather than
being returned as an envelope) and the ledger is unchanged. -/
theorem Invoke_unknown_raises (proto : ObjectPrototype) (st : Ledger) (fcn : String)
    (params : List String) (hnone : lookup proto fcn = none) :
    (Invoke proto st fcn params).outcome
        = .raised (.error ("Received unknown function " ++ fcn ++ " invocation"))
      ∧ (Invoke proto st fcn params).state = st := by
  simp [Invoke, hnone]

/-- The amended C7 applied to the unregistered name `deleteAuditEvent`. -/
theorem Invoke_unknown_raises_witness :
    lookup bareProto "deleteAuditEvent" = none
      ∧ (Invoke bareProto emptyLedger "deleteAuditEvent" ["C1"]).outcome
          = .raised (.error ("Received unknown function " ++ "deleteAuditEvent" ++ " invocation"))
      ∧ (Invoke bareProto emptyLedger "deleteAuditEvent" ["C1"]).state = emptyLedger :=
  ⟨by decide, Invoke_unknown_raises bareProto emptyLedger "deleteAuditEvent" ["C1"] (by decide)⟩

/-- C10 as stated fails: `initLedger`, `Init` and `Invoke` differ from
`storeAuditEvent`, yet `Invoke` finds each of them on the chaincode object and
calls it; for `initLedger` the result is a success envelope. -/
theorem Invoke_initLedger_matches :
    "initLedger" ≠ "storeAuditEvent"
      ∧ (Invoke bareProto emptyLedger "initLedger" []).invoked = some .initLedger
      ∧ (Invoke bareProto emptyLedger "initLedger" []).outcome = .returned (.success .undefined)
      ∧ (Invoke bareProto emptyLedger "Init" []).invoked = some .Init
      ∧ (Invoke bareProto emptyLedger "Init" []).outcome
          = .returned (.success (.success .undefined))
      ∧ (Invoke bareProto emptyLedger "Invoke" []).invoked = some .Invoke
      ∧ (Invoke bareProto emptyLedger "Invoke" []).outcome = .returned (.failure .typeError) := by
  decide

/-- C10, amended: the dispatch hook resolves the requested name by property
lookup on the chaincode object, whose members are `storeAuditEvent`,
`initLedger`, `Init`, `Invoke`, `constructor` and whatever `Object.prototype`
supplies; for every requested name outside that set `Invoke` finds no match,
fails with the unknown-function error and calls no member. -/
theorem Invoke_unmatched_name (proto : ObjectPrototype) (st : Ledger) (fcn : String)
    (params : List String) (hdecl : fcn ∉ declaredNames) (hinh : proto fcn = none) :
    lookup proto fcn = none
      ∧ (Invoke proto st fcn params).invoked = none
      ∧ (Invoke proto st fcn params).outcome
          = .raised (.error ("Received unknown function " ++ fcn ++ " invocation")) := by
  have hnone : lookup proto fcn = none := (lookup_eq_none_iff proto fcn).2 ⟨hdecl, hinh⟩
  simp [Invoke, hnone]

/-- The amended C10 applied to the misspelt name `initledger`. -/
theorem Invoke_unmatched_name_witness :
    "initledger" ∉ declaredNames
      ∧ lookup bareProto "initledger" = none
      ∧ (Invoke bareProto emptyLedger "initledger" []).invoked = none
      ∧ (Invoke bareProto emptyLedger "initledger" []).outcome
          = .raised (.error ("Received unknown function " ++ "initledger" ++ " invocation")) :=
  ⟨by decide, Invoke_unmatched_name bareProto emptyLedger "initledger" [] (by decide) rfl⟩

end Chaincode

/-! ## Theorems about the ledger client -/

namespace ClauseHlfClient

/-- C5: for every payload that decodes to an event whose `contractId` is a
string, and whatever the peers and the orderer do, `submit` sends exactly one
proposal, naming function `storeAuditEvent` with the ordered arguments
`[event.contractId, JSON.stringify(event)]`, and calls `sendTransaction` at
most once. -/
theorem submit_one_proposal (json : JSON) (net : Network) (payload : String)
    (auditEvent : Json) (cid : String)
    (hparse : json.parse payload = some auditEvent)
    (hcid : contractId auditEvent = .ok (.json (.str cid))) :
    proposals (submit json net payload).trace
        = [{ chaincodeId := "clause", fcn := "storeAuditEvent",
             args := [.json (.str cid), .json (.str (json.stringify auditEvent))],
             chainId := "mychannel", txId := net.newTransactionID }]
      ∧ sendCount (submit json net payload).trace ≤ 1 := by
  unfold submit
  simp only [hparse, hcid]
  split
  · simp [proposals, sendCount]
  · split
    · simp [proposals, sendCount]
    · simp [proposals, sendCount]
    · split <;> simp [proposals, sendCount]

/-- The statement of C5 applied to the end-to-end scenario. -/
theorem submit_one_proposal_witness :
    proposals (submit fixtureJSON (fixtureNetwork (some [.response 200 "" ""]))
        scenarioPayload).trace
        = [{ chaincodeId := "clause", fcn := "storeAuditEvent",
             args := [.json (.str "C1"), .json (.str (fixtureJSON.stringify scenarioEvent))],
             chainId := "mychannel",
             txId := (fixtureNetwork (some [.response 200 "" ""])).newTransactionID }]
      ∧ sendCount (submit fixtureJSON (fixtureNetwork (some [.response 200 "" ""]))
        scenarioPayload).trace ≤ 1 :=
  submit_one_proposal fixtureJSON (fixtureNetwork (some [.response 200 "" ""]))
    scenarioPayload scenarioEvent "C1" rfl rfl

/-- C6 as stated fails: the empty record decodes and lacks `contractId`, yet
`submit` raises no decode error; it draws a transaction identifier and sends a
proposal whose first argument is `undefined`. -/
theorem submit_missing_contractId_proposes :
    fixtureJSON.parse "\x7b\x7d" = some (.obj [])
      ∧ contractId (.obj []) = .ok .undefined
      ∧ (submit fixtureJSON (fixtureNetwork none) "\x7b\x7d").settled ≠ .rejected .syntaxError
      ∧ (submit fixtureJSON (fixtureNetwork none) "\x7b\x7d").trace
          = [.newTransactionID "tx-1",
             .sendTransactionProposal
               { chaincodeId := "clause", fcn := "storeAuditEvent",
                 args := [.undefined, .json (.str "\x7b\x7d")],
                 chainId := "mychannel", txId := "tx-1" }] :=
  ⟨rfl, rfl, by decide, rfl⟩

/-- C6, amended: for every raw payload that `JSON.parse` rejects, `submit`
fails with the decode error and that failure is terminal: no transaction
identifier is drawn and no proposal is sent. A payload that decodes to a
record lacking `contractId` is not rejected: an identifier is drawn and one
proposal is sent with `undefined` as its first argument. -/
theorem submit_decode_failure (json : JSON) (net : Network) (payload : String) :
    (json.parse payload = none →
      (submit json net payload).settled = .rejected .syntaxError
        ∧ (submit json net payload).trace = [])
    ∧ (∀ auditEvent, json.parse payload = some auditEvent →
        contractId auditEvent = .ok .undefined →
        identifiers (submit json net payload).trace = [net.newTransactionID]
          ∧ proposals (submit json net payload).trace
            = [{ chaincodeId := "clause", fcn := "storeAuditEvent",
                 args := [.undefined, .json (.str (json.stringify auditEvent))],
                 chainId := "mychannel", txId := net.newTransactionID }]) := by
  refine ⟨fun hparse => ?_, fun auditEvent hparse hcid => ?_⟩
  · simp [submit, hparse]
  · unfold submit
    simp only [hparse, hcid]
    split
    · simp [proposals, identifiers]
    · split
      · simp [proposals, identifiers]
      · simp [proposals, identifiers]
      · split <;> simp [proposals, identifiers]

/-- The amended C6 applied to a payload that is not JSON. -/
theorem submit_decode_failure_witness :
    fixtureJSON.parse "not json" = none
      ∧ (submit fixtureJSON (fixtureNetwork none) "not json").settled = .rejected .syntaxError
      ∧ (submit fixtureJSON (fixtureNetwork none) "not json").trace = [] :=
  ⟨rfl, (submit_decode_failure fixtureJSON (fixtureNetwork none) "not json").1 rfl⟩

theorem isProposalGood_iff (proposalResponses : Option (List Reply)) :
    isProposalGood proposalResponses = .ok true
      ↔ ∃ message payload rest,
          proposalResponses = some (.response 200 message payload :: rest) := by
  unfold isProposalGood
  cases proposalResponses with
  | none => simp
  | some responses =>
    cases responses with
    | nil => simp
    | cons first rest =>
      cases first with
      | nullish => simp
      | noResponse => simp
      | response status message payload => simp

/-- C3 as stated fails: a set whose first response has status 500 and whose
second has status 200 contains a status-200 response, yet `submit` treats it
as bad, rejects, and never calls `sendTransaction`. -/
theorem submit_second_response_ignored :
    [Reply.response 500 "" "", Reply.response 200 "" ""].any statusIs200 = true
      ∧ isProposalGood (some [.response 500 "" "", .response 200 "" ""]) = .ok false
      ∧ (submit fixtureJSON (fixtureNetwork (some [.response 500 "" "", .response 200 "" ""]))
          scenarioPayload).settled = .rejected (.error proposalRejected)
      ∧ sendCount (submit fixtureJSON
          (fixtureNetwork (some [.response 500 "" "", .response 200 "" ""]))
          scenarioPayload).trace = 0 :=
  ⟨by decide, rfl, by decide, rfl⟩

/-- C3, amended: for every proposal that `submit` sent and every set of
responses the peers returned for it, `submit` treats the set as good, and
proceeds to `sendTransaction`, if and only if the first response in the set
carries status 200; later responses are not inspected. -/
theorem submit_good_iff_first_response (json : JSON) (net : Network) (payload : String)
    (request : ProposalRequest) (results : ProposalResults)
    (hsent : Effect.sendTransactionProposal request ∈ (submit json net payload).trace)
    (hresults : net.sendTransactionProposal request = .ok results) :
    (isProposalGood results.proposalResponses = .ok true
        ↔ ∃ message payload rest,
            results.proposalResponses = some (.response 200 message payload :: rest))
      ∧ (sendCount (submit json net payload).trace = 1
        ↔ isProposalGood results.proposalResponses = .ok true) := by
  refine ⟨isProposalGood_iff _, ?_⟩
  revert hsent
  unfold submit
  cases hparse : json.parse payload with
  | none => simp
  | some auditEvent =>
    simp only
    cases hcid : contractId auditEvent with
    | error e => simp
    | ok cid =>
      simp only
      intro hsent
      have hreq : request = ⟨"clause", "storeAuditEvent",
          [cid, .json (.str (json.stringify auditEvent))], "mychannel", net.newTransactionID⟩ := by
        revert hsent
        split
        · simp
        · split
          · simp
          · simp
          · split <;> simp
      subst hreq
      simp only [hresults]
      cases hgood : isProposalGood results.proposalResponses with
      | error e => simp [sendCount]
      | ok good =>
        cases good with
        | false => simp [sendCount]
        | true =>
          simp only
          split <;> simp [sendCount]

/-- The amended C3 applied to a set whose first response has status 200 and whose second has status 500. -/
theorem submit_good_iff_first_response_witness :
    (isProposalGood (some [.response 200 "" "", .response 500 "" ""]) = .ok true
        ↔ ∃ message payload rest,
            some [Reply.response 200 "" "", Reply.response 500 "" ""]
              = some (.response 200 message payload :: rest))
      ∧ (sendCount (submit fixtureJSON
            (fixtureNetwork (some [.response 200 "" "", .response 500 "" ""]))
            scenarioPayload).trace = 1
        ↔ isProposalGood (some [.response 200 "" "", .response 500 "" ""]) = .ok true) :=
  submit_good_iff_first_response fixtureJSON
    (fixtureNetwork (some [.response 200 "" "", .response 500 "" ""])) scenarioPayload
    ⟨"clause", "storeAuditEvent", [.json (.str "C1"), .json (.str scenarioPayload)],
      "mychannel", "tx-1"⟩
    ⟨some [.response 200 "" "", .response 500 "" ""], "proposal-1"⟩
    (List.Mem.tail _ (List.Mem.head _)) rfl

/-- C2, evaluated at the empty response set: the set holds no status-200
response and `sendTransaction` is not called, but `submit` does not reach the
branch that throws the proposal-rejected error; reading `.response` of the
missing first entry raises a `TypeError` instead. The same happens when the
first entry is `undefined` or `null`. -/
theorem submit_empty_response_set :
    ([] : List Reply).any statusIs200 = false
      ∧ (submit fixtureJSON (fixtureNetwork (some [])) scenarioPayload).settled
          = .rejected .typeError
      ∧ (submit fixtureJSON (fixtureNetwork (some [])) scenarioPayload).settled
          ≠ .rejected (.error proposalRejected)
      ∧ sendCount (submit fixtureJSON (fixtureNetwork (some [])) scenarioPayload).trace = 0
      ∧ (submit fixtureJSON (fixtureNetwork (some [.nullish])) scenarioPayload).settled
          = .rejected .typeError :=
  ⟨by decide, by decide, by decide, rfl, by decide⟩

/-- C4, evaluated on the end-to-end scenario: with a good response set and an
accepting orderer the promise of `submit` is fulfilled with `undefined` as soon
as the listener is registered, before any commit notification exists; the
commit callback only unregisters and returns nothing to `submit`, whatever the
code, and the error callback raises a `ReferenceError` for `reject`. No timer
is started anywhere in the run. -/
theorem submit_fulfils_before_commit :
    (submit fixtureJSON (fixtureNetwork (some [.response 200 "" ""])) scenarioPayload).settled
        = .fulfilledUndefined
      ∧ (submit fixtureJSON (fixtureNetwork (some [.response 200 "" ""])) scenarioPayload).trace
        = [.newTransactionID "tx-1",
           .sendTransactionProposal
             { chaincodeId := "clause", fcn := "storeAuditEvent",
               args := [.json (.str "C1"), .json (.str scenarioPayload)],
               chainId := "mychannel", txId := "tx-1" },
           .sendTransaction ⟨some [.response 200 "" ""], "proposal-1"⟩,
           .registerTxEvent "tx-1"]
      ∧ (onTxEvent "tx-1" "VALID").raised = none
      ∧ (onTxEvent "tx-1" "VALID").trace = [.unregisterTxEvent "tx-1"]
      ∧ (onTxError "tx-1" "disconnected").raised = some (.referenceError "reject") :=
  ⟨by decide, rfl, rfl, rfl, rfl⟩

/-- The five shapes a trace of `submit` can have. -/
theorem submit_trace_shape (json : JSON) (net : Network) (payload : String) :
    (submit json net payload).trace = []
      ∨ (submit json net payload).trace = [.newTransactionID net.newTransactionID]
      ∨ (∃ request, (submit json net payload).trace
          = [.newTransactionID net.newTransactionID, .sendTransactionProposal request])
      ∨ (∃ request assembled, (submit json net payload).trace
          = [.newTransactionID net.newTransactionID, .sendTransactionProposal request,
             .sendTransaction assembled])
      ∨ (∃ request assembled, (submit json net payload).trace
          = [.newTransactionID net.newTransactionID, .sendTransactionProposal request,
             .sendTransaction assembled, .registerTxEvent net.newTransactionID]) := by
  unfold submit
  split
  · simp
  · split
    · simp
    · simp only
      split
      · simp
      · split
        · simp
        · simp
        · split <;> simp

/-- C8 as stated fails: in the end-to-end scenario the transaction is sent at
a point of the run where no listener has been registered yet. -/
theorem submit_sends_unregistered :
    ∃ pre assembled post,
      (submit fixtureJSON (fixtureNetwork (some [.response 200 "" ""])) scenarioPayload).trace
          = pre ++ Effect.sendTransaction assembled :: post
        ∧ registrations pre = [] :=
  ⟨[.newTransactionID "tx-1",
    .sendTransactionProposal ⟨"clause", "storeAuditEvent",
      [.json (.str "C1"), .json (.str scenarioPayload)], "mychannel", "tx-1"⟩],
   ⟨some [.response 200 "" ""], "proposal-1"⟩, [.registerTxEvent "tx-1"], rfl, rfl⟩

/-- C8, amended: in every run of `submit` the assembled transaction is sent to
the ordering service first and the commit listener is registered afterwards:
no listener is registered at the point where `sendTransaction` occurs, and
wherever `registerTxEvent` occurs the transaction has already been sent. -/
theorem submit_send_then_register (json : JSON) (net : Network) (payload : String) :
    (∀ pre assembled post,
        (submit json net payload).trace = pre ++ Effect.sendTransaction assembled :: post →
        registrations pre = [])
      ∧ (∀ pre txId post,
        (submit json net payload).trace = pre ++ Effect.registerTxEvent txId :: post →
        sendCount pre = 1) := by
  constructor
  · intro pre assembled post h
    rcases submit_trace_shape json net payload with h0 | h1 | ⟨q, h2⟩ | ⟨q, a, h3⟩ | ⟨q, a, h4⟩
    all_goals
      first
      | (rw [h0] at h)
      | (rw [h1] at h)
      | (rw [h2] at h)
      | (rw [h3] at h)
      | (rw [h4] at h)
    all_goals
      rcases pre with _ | ⟨e1, _ | ⟨e2, _ | ⟨e3, _ | ⟨e4, pre⟩⟩⟩⟩ <;>
        simp [registrations] at h ⊢
    all_goals
      obtain ⟨rfl, rfl, _⟩ := h
      simp [registrations]
  · intro pre txId post h
    rcases submit_trace_shape json net payload with h0 | h1 | ⟨q, h2⟩ | ⟨q, a, h3⟩ | ⟨q, a, h4⟩
    all_goals
      first
      | (rw [h0] at h)
      | (rw [h1] at h)
      | (rw [h2] at h)
      | (rw [h3] at h)
      | (rw [h4] at h)
    all_goals
      rcases pre with _ | ⟨e1, _ | ⟨e2, _ | ⟨e3, _ | ⟨e4, pre⟩⟩⟩⟩ <;>
        simp [sendCount] at h ⊢
    all_goals
      obtain ⟨rfl, rfl, rfl, _⟩ := h
      simp [sendCount]

/-- The amended C8 applied to the end-to-end scenario. -/
theorem submit_send_then_register_witness :
    registrations [Effect.newTransactionID "tx-1",
        .sendTransactionProposal ⟨"clause", "storeAuditEvent",
          [.json (.str "C1"), .json (.str scenarioPayload)], "mychannel", "tx-1"⟩] = []
      ∧ sendCount [Effect.newTransactionID "tx-1",
        .sendTransactionProposal ⟨"clause", "storeAuditEvent",
          [.json (.str "C1"), .json (.str scenarioPayload)], "mychannel", "tx-1"⟩,
        .sendTransaction ⟨some [.response 200 "" ""], "proposal-1"⟩] = 1 :=
  ⟨(submit_send_then_register fixtureJSON (fixtureNetwork (some [.response 200 "" ""]))
      scenarioPayload).1 _ ⟨some [.response 200 "" ""], "proposal-1"⟩
      [.registerTxEvent "tx-1"] rfl,
   (submit_send_then_register fixtureJSON (fixtureNetwork (some [.response 200 "" ""]))
      scenarioPayload).2 _ "tx-1" [] rfl⟩

/-- C9 as stated fails: when the event hub reports a connectivity error to a
submission that registered a listener, the error callback unregisters
nothing, so the run holds one registration and no unregistration. -/
theorem notify_hubError_keeps_listener :
    registrations (notify
        (submit fixtureJSON (fixtureNetwork (some [.response 200 "" ""])) scenarioPayload)
        (.hubError "disconnected")) = ["tx-1"]
      ∧ unregistrations (notify
        (submit fixtureJSON (fixtureNetwork (some [.response 200 "" ""])) scenarioPayload)
        (.hubError "disconnected")) = [] :=
  ⟨rfl, rfl⟩

/-- C9, amended: for every submission that registered a commit listener, a
commit notification, whether its code is "VALID" or anything else, makes the
callback unregister the listener for the transaction identifier of that
submission exactly once, so the run holds exactly one registration and one
unregistration, both for that identifier. The error callback performs no
unregistration. -/
theorem notify_commit_unregisters_once (json : JSON) (net : Network) (payload code : String)
    (hreg : registrations (submit json net payload).trace ≠ []) :
    registrations (notify (submit json net payload) (.commit code)) = [net.newTransactionID]
      ∧ unregistrations (notify (submit json net payload) (.commit code))
          = [net.newTransactionID]
      ∧ ∀ err, unregistrations (notify (submit json net payload) (.hubError err)) = [] := by
  rcases submit_trace_shape json net payload with h0 | h1 | ⟨q, h2⟩ | ⟨q, a, h3⟩ | ⟨q, a, h4⟩
  · simp [h0, registrations] at hreg
  · simp [h1, registrations] at hreg
  · simp [h2, registrations] at hreg
  · simp [h3, registrations] at hreg
  · simp [notify, h4, registrations, unregistrations, deliver, onTxEvent, onTxError]

/-- The amended C9 applied to a commit notification with a code other than VALID. -/
theorem notify_commit_unregisters_once_witness :
    registrations (submit fixtureJSON (fixtureNetwork (some [.response 200 "" ""]))
        scenarioPayload).trace ≠ []
      ∧ unregistrations (notify
          (submit fixtureJSON (fixtureNetwork (some [.response 200 "" ""])) scenarioPayload)
          (.commit "MVCC_READ_CONFLICT"))
        = [(fixtureNetwork (some [.response 200 "" ""])).newTransactionID] :=
  ⟨by decide,
   (notify_commit_unregisters_once fixtureJSON (fixtureNetwork (some [.response 200 "" ""]))
      scenarioPayload "MVCC_READ_CONFLICT" (by decide)).2.1⟩

end ClauseHlfClient
